import Mathlib

set_option linter.unusedVariables false
set_option linter.unnecessarySeqFocus false

/-!
Verification of the AttendQR attendance server (repository ATTENDACE).

This file is a shallow embedding of the two core subsystems of the
repository, with theorems about them:

* the keyed concurrent write queue of `server/src/services/queue.service.js`
  (class `KeyedConcurrentQueue`), and
* the attendance submission pipeline of
  `server/src/routes/attendance.routes.js`,
  `server/src/services/anticheating.service.js`,
  `server/src/services/session.service.js` and
  `server/src/services/store.service.js`.

The JavaScript runtime is single threaded: every request handler and every
queue operation runs synchronously between awaits (the only awaits on the
submit path resolve immediately, and express dispatches each request from a
macrotask, after all pending microtasks have drained), so the stateful code
is embedded as pure state passing functions.  The asynchronous lane
processing of the queue is embedded as a deterministic trace of execution
events, and the synchronous prefix of `enqueue`/`_drain`/`_processLane`
(everything up to the first await of a task) is embedded as a state
transformer for the backpressure claims.
-/

namespace AttendQR


/-! ### KeyedConcurrentQueue lane processing

`_processLane(key)` (queue.service.js) pops items from the front of its
lane array one at a time and awaits each task.  On success it increments
the `_processed` counter and invokes the optional onSuccess callback inside
`try { ... } catch (e) { /* ignore */ }`.  On failure with
`item.retries < this._maxRetries` it increments `item.retries`, waits
`this._retryDelay * Math.pow(2, item.retries - 1)` milliseconds and
re-adds the item at the front of the lane (`unshift`).  On failure with
retries exhausted it increments the `_failed` counter and invokes the
optional onFailure callback, again swallowing callback exceptions. -/

structure LaneCfg where
  maxRetries : Nat
  retryDelay : Nat
deriving DecidableEq, Repr

/-- A queue item together with the behaviour of its task.  The queue treats
the task as an opaque awaitable, so the only observable of a task is how
often it fails before succeeding: the task of an item fails its first
`failCount` executions and succeeds afterwards (an always failing task is
any item with `failCount` larger than the attempts the queue will ever
grant it).  `retries` is the mutable bookkeeping field of the JavaScript
item, 0 at enqueue time.  `hasOnSuccess`/`hasOnFailure` record whether the
optional callbacks were supplied, and `cbThrows` records whether an invoked
callback itself throws; the source wraps every callback invocation in a
try/catch whose catch block ignores the exception, so `cbThrows` influences
nothing below - that is the embedding of the swallow. -/

structure QItem where
  id : Nat
  failCount : Nat
  retries : Nat
  hasOnSuccess : Bool
  hasOnFailure : Bool
  cbThrows : Bool
deriving DecidableEq, Repr

/-- Outcome of one execution attempt of an item, as observable in the
trace: success (recording whether onSuccess was invoked), failure followed
by a scheduled retry (recording the backoff wait in milliseconds), or
terminal failure after exhausted retries (recording whether onFailure was
invoked with the terminal error). -/

inductive ERes where
  | succ (cbInvoked : Bool)
  | failRetry (delay : Nat)
  | failFinal (cbInvoked : Bool)
deriving DecidableEq, Repr

structure Event where
  id : Nat
  res : ERes
deriving DecidableEq, Repr

def itemWeight (m : Nat) (it : QItem) : Nat := m - it.retries + 1

def laneWeight (m : Nat) (items : List QItem) : Nat := (items.map (itemWeight m)).sum

def arrsWeight (m : Nat) (arrs : List (List QItem)) : Nat :=
  (arrs.map (fun b => laneWeight m b + 1)).sum

/-- Embedding of `_processLane` for one lane, as the trace of execution
attempts it produces.  `items` is the current lane backlog (head of the
list = front of the JavaScript array).  `arrs` models concurrent enqueues
under the same key: `enqueue` pushes to the back of the live lane array,
and such pushes are observed by the lane loop only at an await point,
between two execution attempts; batch `k` of `arrs` is the list of items
appended during attempt `k`.  On a failure that will be retried, the
source first awaits the backoff timeout and then unshifts the item, so
items that arrived during the wait sit behind the re-inserted item, which
the `b :: arrs` retry branch reflects.  When the backlog is empty and a
later batch arrives, the source lane has exited and the next enqueue
restarts it via `_drain`; the restarted loop continues with exactly that
batch, which is the `(b :: arrs, [])` case. -/

def processLane (cfg : LaneCfg) : List (List QItem) → List QItem → List Event
  | [], [] => []
  | b :: arrs, [] => processLane cfg arrs b
  | [], it :: restItems =>
    if 0 < it.failCount then
      if h : it.retries < cfg.maxRetries then
        ⟨it.id, .failRetry (cfg.retryDelay * 2 ^ it.retries)⟩ ::
          processLane cfg []
            ({ it with failCount := it.failCount - 1, retries := it.retries + 1 } :: restItems)
      else
        ⟨it.id, .failFinal it.hasOnFailure⟩ :: processLane cfg [] restItems
    else
      ⟨it.id, .succ it.hasOnSuccess⟩ :: processLane cfg [] restItems
  | b :: arrs, it :: restItems =>
    if 0 < it.failCount then
      if h : it.retries < cfg.maxRetries then
        ⟨it.id, .failRetry (cfg.retryDelay * 2 ^ it.retries)⟩ ::
          processLane cfg arrs
            ({ it with failCount := it.failCount - 1, retries := it.retries + 1 } ::
              (restItems ++ b))
      else
        ⟨it.id, .failFinal it.hasOnFailure⟩ :: processLane cfg arrs (restItems ++ b)
    else
      ⟨it.id, .succ it.hasOnSuccess⟩ :: processLane cfg arrs (restItems ++ b)
termination_by arrs items => arrsWeight cfg.maxRetries arrs + laneWeight cfg.maxRetries items
decreasing_by
all_goals simp_wf
all_goals simp [arrsWeight, laneWeight, itemWeight, List.sum_append]
all_goals omega

/-- The trace produced by a single item run at the front of a lane with
nothing behind it: its attempts repeat until the task succeeds, or
`retries` reaches `maxRetries` and one further failure drops it. -/

def runItem (cfg : LaneCfg) (it : QItem) : List Event :=
  if 0 < it.failCount then
    if h : it.retries < cfg.maxRetries then
      ⟨it.id, .failRetry (cfg.retryDelay * 2 ^ it.retries)⟩ ::
        runItem cfg { it with failCount := it.failCount - 1, retries := it.retries + 1 }
    else [⟨it.id, .failFinal it.hasOnFailure⟩]
  else [⟨it.id, .succ it.hasOnSuccess⟩]
termination_by cfg.maxRetries - it.retries
decreasing_by simp_wf; omega

/-- The backoff waits recorded in a trace, in order. -/

def retryDelays (evs : List Event) : List Nat :=
  evs.filterMap fun e =>
    match e.res with
    | .failRetry d => some d
    | _ => none

def isFailFinal : ERes → Bool
  | .failFinal _ => true
  | _ => false

/-- Number of terminal failures in a trace; the source increments its
`_failed` counter exactly once per terminal failure. -/

def failedCount (evs : List Event) : Nat :=
  (evs.filter fun e => isFailFinal e.res).length

/-! ### KeyedConcurrentQueue synchronous state

State of a `KeyedConcurrentQueue` as mutated by the synchronous part of
`enqueue` (queue.service.js lines 110-124) and `_drain` (lines 130-145).
Calling the async `_processLane(key)` executes its body synchronously up
to the first `await item.task()`: it shifts the first item off the lane
array and decrements `_totalItems` before the task suspends.  For slow
tasks (tasks that do not settle during the enqueue call) the synchronous
semantics below is therefore exact: `lanes` is the Map in insertion order,
`activeLanes` the set of keys being serviced, `inFlight` the items shifted
out of their lane and currently awaiting their task, and `totalItems` the
`_totalItems` counter. -/

structure SyncQueue where
  lanes : List (String × List Nat)
  activeLanes : List String
  inFlight : List Nat
  concurrency : Nat
  maxSize : Nat
  totalItems : Nat
  processed : Nat
  failed : Nat
deriving DecidableEq, Repr

def laneGet (lanes : List (String × List Nat)) (k : String) : Option (List Nat) :=
  match lanes with
  | [] => none
  | (k2, v) :: rest => if k2 = k then some v else laneGet rest k

/-- `if (!this._lanes.has(key)) this._lanes.set(key, []);
this._lanes.get(key).push(item)` - a JavaScript Map keeps insertion order,
so a new key is appended at the end. -/

def lanePush (lanes : List (String × List Nat)) (k : String) (id : Nat) :
    List (String × List Nat) :=
  match lanes with
  | [] => [(k, [id])]
  | (k2, v) :: rest => if k2 = k then (k2, v ++ [id]) :: rest else (k2, v) :: lanePush rest k id

def laneShift (lanes : List (String × List Nat)) (k : String) : List (String × List Nat) :=
  match lanes with
  | [] => []
  | (k2, v) :: rest => if k2 = k then (k2, v.tail) :: rest else (k2, v) :: laneShift rest k

/-- The synchronous prefix of `_processLane(key)` after `_drain` marked the
lane active: shift the head of the lane array, decrement `_totalItems`,
start the task (which suspends at its first await). -/

def drainStep (st : SyncQueue) (k : String) : SyncQueue :=
  match laneGet st.lanes k with
  | none => st
  | some [] => st
  | some (id :: _) =>
    { st with lanes := laneShift st.lanes k,
              activeLanes := st.activeLanes ++ [k],
              inFlight := st.inFlight ++ [id],
              totalItems := st.totalItems - 1 }

/-- One pass of `_drain`: iterate the lane entries in insertion order;
stop when `concurrency` lanes are active; skip active or empty lanes;
otherwise mark the lane active and run the synchronous prefix of its
`_processLane`. -/

def drainGo (st : SyncQueue) : List (String × List Nat) → SyncQueue
  | [] => st
  | (k, _) :: rest =>
    if st.concurrency ≤ st.activeLanes.length then st
    else if k ∈ st.activeLanes ∨ (laneGet st.lanes k).getD [] = [] then drainGo st rest
    else drainGo (drainStep st k) rest

def drain (st : SyncQueue) : SyncQueue := drainGo st st.lanes

structure EnqueueResult where
  ok : Bool
  state : SyncQueue
  rejectError : Option String
  onFailureInvoked : Bool
  threw : Bool
deriving DecidableEq, Repr

/-- Embedding of `KeyedConcurrentQueue.enqueue` for a slow task.  If
`_totalItems >= _maxSize` the item is rejected: the supplied onFailure
callback is invoked synchronously with `new Error("Queue full -
backpressure")` inside a try/catch that ignores callback exceptions, and
false is returned without touching any state.  Otherwise the item is
appended to its lane (creating the lane if absent), `_totalItems` is
incremented, `_drain` runs, and true is returned.  `threw` records whether
the call raised an exception to its caller; the only code that could
throw, the callback, is wrapped in try/catch, so it is false on every
path. -/

def enqueue (st : SyncQueue) (id : Nat) (key : String) (hasOnFailure : Bool)
    (cbThrows : Bool) : EnqueueResult :=
  if st.maxSize ≤ st.totalItems then
    { ok := false, state := st, rejectError := some "Queue full - backpressure",
      onFailureInvoked := hasOnFailure, threw := false }
  else
    let st1 := { st with lanes := lanePush st.lanes key id, totalItems := st.totalItems + 1 }
    { ok := true, state := drain st1, rejectError := none,
      onFailureInvoked := false, threw := false }

/-! ### Attendance submission pipeline

Data model of the submit path.  Coordinates are embedded as integers (any
fixed decimal scaling of latitude/longitude); the only facts about
coordinate values used by the code are JavaScript truthiness (`0` is
falsy) and the great-circle distance `geolib.getDistance`, which returns a
rounded number of meters and which the embedding takes as an abstract
function `dist : Coord -> Coord -> Nat`, since its floating point
internals are irrelevant to every claim. -/

structure Coord where
  lat : Int
  lng : Int
deriving DecidableEq, Repr

structure LocResult where
  valid : Bool
  distance : Int
  reason : String
deriving DecidableEq, Repr

/-- JavaScript `a || d` for a possibly missing number: undefined/null and 0
are falsy. -/

def jsOrNat (o : Option Nat) (d : Nat) : Nat :=
  match o with
  | none => d
  | some v => if v = 0 then d else v

/-- JavaScript `a || d` for a possibly missing string: undefined/null and
the empty string are falsy. -/

def jsOrStr (o : Option String) (d : String) : String :=
  match o with
  | none => d
  | some s => if s = "" then d else s

/-- `AntiCheatingService.validateLocation` (anticheating.service.js lines
14-38).  `!studentLocation || !studentLocation.lat || !studentLocation.lng`
returns `{ valid: false, distance: -1 }` (a zero coordinate is falsy);
a missing or zero classroom coordinate skips geofencing with
`{ valid: true, distance: 0 }`; otherwise valid iff the distance is at
most `radius || config.defaultGeofenceRadius`. -/

def validateLocation (dist : Coord → Coord → Nat)
    (studentLocation classroomLocation : Option Coord)
    (radius : Option Nat) (defaultRadius : Nat) : LocResult :=
  match studentLocation with
  | none => ⟨false, -1, "No location data"⟩
  | some s =>
    if s.lat = 0 ∨ s.lng = 0 then ⟨false, -1, "No location data"⟩
    else
      match classroomLocation with
      | none => ⟨true, 0, "No classroom location configured"⟩
      | some c =>
        if c.lat = 0 ∨ c.lng = 0 then ⟨true, 0, "No classroom location configured"⟩
        else
          let d := dist s c
          let r := jsOrNat radius defaultRadius
          { valid := decide (d ≤ r), distance := (d : Int),
            reason := if r < d then
                "Student is " ++ toString d ++ "m away (limit: " ++ toString r ++ "m)"
              else "Within geofence" }

structure Violation where
  vtype : String
  details : String
  distance : Int
deriving DecidableEq, Repr

structure AttRecord where
  sessionId : String
  studentName : String
  email : String
  ipAddress : String
  macAddress : String
  latitude : Option Int
  longitude : Option Int
  timestamp : Nat
  status : String
  violations : List Violation
deriving DecidableEq, Repr

structure DupResult where
  isDuplicate : Bool
  duplicateOf : List String
  reason : String
deriving DecidableEq, Repr

/-- `AntiCheatingService.checkDuplicateDevice` (anticheating.service.js
lines 44-62): scan the attendance records of the session for a truthy-and-
equal IP address or a truthy-and-equal MAC address. -/

def checkDuplicateDevice (records : List AttRecord)
    (sessionId ipAddress macAddress : String) : DupResult :=
  let sessionRecords := records.filter (fun r => decide (r.sessionId = sessionId))
  let duplicates := sessionRecords.filter (fun r =>
    decide ((ipAddress ≠ "" ∧ r.ipAddress = ipAddress) ∨
      (macAddress ≠ "" ∧ r.macAddress = macAddress)))
  if duplicates.isEmpty then ⟨false, [], "No duplicates found"⟩
  else ⟨true, duplicates.map (fun d => d.email),
    "Device already used by: " ++ String.intercalate ", " (duplicates.map (fun d => d.studentName))⟩

structure Session where
  id : String
  teacherId : String
  isActive : Bool
  expiresAt : Nat
  classroomLocation : Option Coord
  geofenceRadius : Option Nat
  spreadsheetId : Option String
deriving DecidableEq, Repr

structure CheatLog where
  sessionId : String
  studentName : String
  email : String
  violationType : String
  details : String
  distance : Int
  ipAddress : String
  macAddress : String
  timestamp : Nat
deriving DecidableEq, Repr

/-- The mutable stores the submit path touches: the sessions table, the
session_attendees table (duplicate tracking), the attendance table and the
cheating_logs table of store.service.js, plus the current time. -/

structure World where
  sessions : List Session
  attendees : List (String × String)
  records : List AttRecord
  cheatingLogs : List CheatLog
  now : Nat
deriving DecidableEq, Repr

inductive SessionCheck where
  | invalid (reason : String)
  | ok (s : Session)
deriving DecidableEq, Repr

/-- `getSession` of store.service.js: first session row with the given id. -/

def getSession (w : World) (sessionId : String) : Option Session :=
  w.sessions.find? (fun s => decide (s.id = sessionId))

def deactivateSession (w : World) (sessionId : String) : World :=
  { w with sessions := w.sessions.map (fun s =>
      if s.id = sessionId then { s with isActive := false } else s) }

/-- `SessionService.isSessionValid` (session.service.js lines 85-94):
missing, inactive and expired sessions are invalid; an expired session is
deactivated as a side effect. -/

def isSessionValid (w : World) (sessionId : String) : SessionCheck × World :=
  match getSession w sessionId with
  | none => (.invalid "Session not found", w)
  | some s =>
    if s.isActive = false then (.invalid "Session is no longer active", w)
    else if s.expiresAt < w.now then
      (.invalid "Session has expired", deactivateSession w sessionId)
    else (.ok s, w)

/-- `hasSessionAttendee` of store.service.js: membership in the
session_attendees table. -/

def hasSessionAttendee (w : World) (sessionId email : String) : Bool :=
  decide ((sessionId, email) ∈ w.attendees)

/-- `addSessionAttendee` of store.service.js: INSERT OR IGNORE into the
session_attendees table, whose primary key is (session_id, email). -/

def addSessionAttendee (w : World) (sessionId email : String) : World :=
  if (sessionId, email) ∈ w.attendees then w
  else { w with attendees := w.attendees ++ [(sessionId, email)] }

structure VParams where
  sessionId : String
  studentName : String
  email : String
  ipAddress : String
  macAddress : String
  studentLocation : Option Coord
  classroomLocation : Option Coord
  geofenceRadius : Option Nat
deriving DecidableEq, Repr

structure VResult where
  isValid : Bool
  violations : List Violation
  locationResult : LocResult
  duplicateResult : DupResult
deriving DecidableEq, Repr

def mkViolationLog (p : VParams) (now : Nat) (v : Violation) : CheatLog :=
  ⟨p.sessionId, p.studentName, p.email, v.vtype, v.details, v.distance,
    p.ipAddress, p.macAddress, now⟩

/-- `AntiCheatingService.validateSubmission` (anticheating.service.js lines
67-152): run the geofence check, push a Location Violation only when the
check failed with a nonnegative distance, run the duplicate device check,
push a Duplicate Device violation when it hits, and log every violation
(plus one log entry per previously recorded matching submitter) to the
cheating store.  The submission is valid iff no violation was pushed. -/

def validateSubmission (dist : Coord → Coord → Nat) (defaultRadius : Nat)
    (w : World) (p : VParams) : VResult × World :=
  let locationResult := validateLocation dist p.studentLocation p.classroomLocation
    p.geofenceRadius defaultRadius
  let duplicateResult := checkDuplicateDevice w.records p.sessionId p.ipAddress p.macAddress
  let violations :=
    (if locationResult.valid = false ∧ 0 ≤ locationResult.distance then
        [⟨"Location Violation", locationResult.reason, locationResult.distance⟩] else [])
    ++ (if duplicateResult.isDuplicate then
        [⟨"Duplicate Device", duplicateResult.reason,
          if 0 ≤ locationResult.distance then locationResult.distance else 0⟩] else [])
  let newLogs :=
    if violations.isEmpty then []
    else violations.map (mkViolationLog p w.now) ++
      (if duplicateResult.isDuplicate then
        duplicateResult.duplicateOf.filterMap (fun de =>
          (w.records.find? (fun r => decide (r.sessionId = p.sessionId ∧ r.email = de))).map
            (fun er => (⟨p.sessionId, er.studentName, de, "Duplicate Device",
              "Same device used by " ++ p.studentName ++ " (" ++ p.email ++ ")", 0,
              p.ipAddress, p.macAddress, w.now⟩ : CheatLog)))
       else [])
  ({ isValid := violations.isEmpty, violations := violations,
     locationResult := locationResult, duplicateResult := duplicateResult },
   { w with cheatingLogs := w.cheatingLogs ++ newLogs })

structure Submission where
  sessionId : String
  studentName : String
  email : String
  macAddress : Option String
  latitude : Option Int
  longitude : Option Int
  ipAddress : String
deriving DecidableEq, Repr

structure SubmitResponse where
  success : Bool
  message : String
deriving DecidableEq, Repr

def jsLocOf (latitude longitude : Option Int) : Option Coord :=
  match latitude, longitude with
  | some la, some lo => if la ≠ 0 ∧ lo ≠ 0 then some ⟨la, lo⟩ else none
  | _, _ => none

def jsTruthyInt (o : Option Int) : Option Int :=
  match o with
  | some v => if v ≠ 0 then some v else none
  | none => none

/-- The POST /api/attendance/submit handler (attendance.routes.js lines
33-152), up to the point where the HTTP response is sent.  An invalid
session and a duplicate (sessionId, email) pair both answer with a
success shaped body and perform no store writes (the expired case
deactivates the session); an accepted submission substitutes the literal
string N/A for a missing MAC address, validates, persists the record with
status PRESENT or FLAGGED, adds the attendee pair and answers with the
success body.  The subsequent queue enqueues (lines 96-147) run after the
response and touch neither the stores nor the response, so they are not
part of this function. -/

def submitHandler (dist : Coord → Coord → Nat) (defaultRadius : Nat)
    (w : World) (sub : Submission) : SubmitResponse × World :=
  match isSessionValid w sub.sessionId with
  | (.invalid _, w1) => (⟨true, "Attendance submitted successfully"⟩, w1)
  | (.ok session, w1) =>
    if hasSessionAttendee w1 sub.sessionId sub.email then
      (⟨true, "Attendance already recorded"⟩, w1)
    else
      let mac := jsOrStr sub.macAddress "N/A"
      let p : VParams := ⟨sub.sessionId, sub.studentName, sub.email, sub.ipAddress, mac,
        jsLocOf sub.latitude sub.longitude, session.classroomLocation, session.geofenceRadius⟩
      let res := validateSubmission dist defaultRadius w1 p
      let record : AttRecord := ⟨sub.sessionId, sub.studentName, sub.email, sub.ipAddress, mac,
        jsTruthyInt sub.latitude, jsTruthyInt sub.longitude, res.2.now,
        if res.1.isValid then "PRESENT" else "FLAGGED", res.1.violations⟩
      let w3 : World := { res.2 with records := res.2.records ++ [record] }
      let w4 := addSessionAttendee w3 sub.sessionId sub.email
      (⟨true, "Attendance submitted successfully"⟩, w4)

def zeroDist : Coord → Coord → Nat := fun _ _ => 0

def c4World : World := ⟨[⟨"s1", "t1", true, 100, none, none, none⟩], [], [], [], 50⟩

def c4Sub : Submission := ⟨"s1", "Alice", "alice@u.edu", none, none, none, "10.0.0.1"⟩

/-- At most one attendance record per (sessionId, email) pair. -/

def PairUnique (rs : List AttRecord) : Prop :=
  rs.Pairwise (fun a b => ¬ (a.sessionId = b.sessionId ∧ a.email = b.email))

/-- Every persisted attendance record has its (sessionId, email) pair in
the session_attendees table.  The handler establishes this by calling
`addSessionAttendee` immediately after `addAttendanceRecord`, with no
suspension point between the duplicate check and the insert. -/

def RecordsCovered (w : World) : Prop :=
  ∀ r ∈ w.records, (r.sessionId, r.email) ∈ w.attendees

def c5World : World := ⟨[⟨"s9", "t9", true, 200, none, none, none⟩], [], [], [], 60⟩

def c5Sub : Submission := ⟨"s9", "Bob", "bob@u.edu", none, none, none, "10.0.0.9"⟩

/-- The argument object the submit handler passes to
`AntiCheatingService.validateSubmission` (attendance.routes.js lines
63-72). -/

def subParams (sub : Submission) (s : Session) : VParams :=
  ⟨sub.sessionId, sub.studentName, sub.email, sub.ipAddress, jsOrStr sub.macAddress "N/A",
    jsLocOf sub.latitude sub.longitude, s.classroomLocation, s.geofenceRadius⟩

/-- The record the submit handler persists (attendance.routes.js lines
75-88). -/

def subRecord (dist : Coord → Coord → Nat) (dr : Nat) (w : World)
    (sub : Submission) (s : Session) : AttRecord :=
  ⟨sub.sessionId, sub.studentName, sub.email, sub.ipAddress, jsOrStr sub.macAddress "N/A",
    jsTruthyInt sub.latitude, jsTruthyInt sub.longitude, w.now,
    if (validateSubmission dist dr w (subParams sub s)).1.isValid = true then "PRESENT"
    else "FLAGGED",
    (validateSubmission dist dr w (subParams sub s)).1.violations⟩

/-- A sample distance function for concrete evaluations; at two identical
coordinates every distance function that is a metric, the great-circle
distance of geolib included, returns 0, which is the only property the
counterexamples rely on. -/

def taxiDist (a b : Coord) : Nat := (a.lat - b.lat).natAbs + (a.lng - b.lng).natAbs

/-! ### Theorems -/

theorem runItem_retry (cfg : LaneCfg) (it : QItem) (h1 : 0 < it.failCount)
    (h2 : it.retries < cfg.maxRetries) :
    runItem cfg it = ⟨it.id, .failRetry (cfg.retryDelay * 2 ^ it.retries)⟩ ::
      runItem cfg { it with failCount := it.failCount - 1, retries := it.retries + 1 } := by
  rw [runItem]; simp [h1, h2]

theorem runItem_final (cfg : LaneCfg) (it : QItem) (h1 : 0 < it.failCount)
    (h2 : ¬ it.retries < cfg.maxRetries) :
    runItem cfg it = [⟨it.id, .failFinal it.hasOnFailure⟩] := by
  rw [runItem]; simp [h1, h2]

theorem runItem_succ (cfg : LaneCfg) (it : QItem) (h1 : ¬ 0 < it.failCount) :
    runItem cfg it = [⟨it.id, .succ it.hasOnSuccess⟩] := by
  rw [runItem]; simp [h1]

/-- Central lane lemma: the trace of a lane is the concatenation of the
per-item traces, in enqueue order (initial backlog first, then the arrival
batches in arrival order).  In particular an item that fails and is
re-inserted at the front finishes (succeeds or exhausts its retries)
before any later-enqueued item of the same lane starts. -/

theorem processLane_eq_flatMap (cfg : LaneCfg) (arrs : List (List QItem)) (items : List QItem) :
    processLane cfg arrs items = (items ++ arrs.flatten).flatMap (runItem cfg) := by
  induction arrs, items using processLane.induct cfg with
  | case1 => simp [processLane]
  | case2 b arrs ih => simp [processLane, ih]
  | case3 it restItems h1 h2 ih =>
    rw [processLane]
    simp only [if_pos h1, dif_pos h2]
    rw [ih]
    simp only [List.cons_append, List.flatMap_cons]
    rw [runItem_retry cfg it h1 h2]
    simp [List.flatMap_append, List.append_assoc]
  | case4 it restItems h1 h2 ih =>
    rw [processLane]
    simp only [if_pos h1, dif_neg h2]
    rw [ih]
    simp only [List.cons_append, List.flatMap_cons]
    rw [runItem_final cfg it h1 h2]
    simp [List.flatMap_append, List.append_assoc]
  | case5 it restItems h1 ih =>
    rw [processLane]
    simp only [if_neg h1]
    rw [ih]
    simp only [List.cons_append, List.flatMap_cons]
    rw [runItem_succ cfg it h1]
    simp [List.flatMap_append, List.append_assoc]
  | case6 b arrs it restItems h1 h2 ih =>
    rw [processLane]
    simp only [if_pos h1, dif_pos h2]
    rw [ih]
    simp only [List.cons_append, List.flatMap_cons]
    rw [runItem_retry cfg it h1 h2]
    simp [List.flatMap_append, List.append_assoc]
  | case7 b arrs it restItems h1 h2 ih =>
    rw [processLane]
    simp only [if_pos h1, dif_neg h2]
    rw [ih]
    simp only [List.cons_append, List.flatMap_cons]
    rw [runItem_final cfg it h1 h2]
    simp [List.flatMap_append, List.append_assoc]
  | case8 b arrs it restItems h1 ih =>
    rw [processLane]
    simp only [if_neg h1]
    rw [ih]
    simp only [List.cons_append, List.flatMap_cons]
    rw [runItem_succ cfg it h1]
    simp [List.flatMap_append, List.append_assoc]

theorem retryDelays_runItem (cfg : LaneCfg) (id : Nat) (hos hof cbt : Bool) :
    ∀ f r, retryDelays (runItem cfg ⟨id, f, r, hos, hof, cbt⟩) =
      (List.range (min f (cfg.maxRetries - r))).map (fun k => cfg.retryDelay * 2 ^ (r + k)) := by
  intro f
  induction f with
  | zero =>
    intro r
    rw [runItem_succ cfg _ (by simp)]
    simp [retryDelays]
  | succ f ih =>
    intro r
    by_cases h2 : r < cfg.maxRetries
    · rw [runItem_retry cfg _ (by simp) h2]
      simp only [retryDelays, List.filterMap_cons] at *
      simp only [Nat.add_sub_cancel]
      rw [ih (r + 1)]
      have hmin : min (f + 1) (cfg.maxRetries - r) = (min f (cfg.maxRetries - (r + 1))) + 1 := by
        omega
      rw [hmin, List.range_succ_eq_map]
      have he : ∀ a : Nat, r + 1 + a = r + (a + 1) := fun a => by omega
      simp [Function.comp, Nat.succ_eq_add_one, he]
    · rw [runItem_final cfg _ (by simp) h2]
      have : min (f + 1) (cfg.maxRetries - r) = 0 := by omega
      simp [retryDelays, this]

theorem runItem_exhausted (cfg : LaneCfg) (id : Nat) (hos hof cbt : Bool) :
    ∀ f r, cfg.maxRetries - r < f →
      runItem cfg ⟨id, f, r, hos, hof, cbt⟩ =
        ((List.range (cfg.maxRetries - r)).map
            (fun k => ⟨id, .failRetry (cfg.retryDelay * 2 ^ (r + k))⟩)) ++
          [⟨id, .failFinal hof⟩] := by
  intro f
  induction f with
  | zero => intro r h; omega
  | succ f ih =>
    intro r h
    by_cases h2 : r < cfg.maxRetries
    · rw [runItem_retry cfg _ (by simp) h2]
      simp only [Nat.add_sub_cancel]
      rw [ih (r + 1) (by omega)]
      have hm : cfg.maxRetries - r = (cfg.maxRetries - (r + 1)) + 1 := by omega
      rw [hm, List.range_succ_eq_map]
      have he : ∀ a : Nat, r + 1 + a = r + (a + 1) := fun a => by omega
      simp [Function.comp, Nat.succ_eq_add_one, he]
    · rw [runItem_final cfg _ (by simp) h2]
      have : cfg.maxRetries - r = 0 := by omega
      simp [this]

/-- C1: for every sequence of tasks enqueued under the same key (initial
backlog `items` and concurrent same-key enqueue batches `arrs`), the lane
trace equals the concatenation of the per-item traces in enqueue order:
tasks begin executing in exactly their enqueue order, and a failed task
with remaining retries is re-inserted at the front of its own lane after
the backoff wait, so it runs to completion (success or retry exhaustion)
before any later-enqueued task of the same key starts. -/

theorem claim_C1_same_key_fifo (cfg : LaneCfg) (arrs : List (List QItem)) (items : List QItem) :
    processLane cfg arrs items = (items ++ arrs.flatten).flatMap (runItem cfg) :=
  processLane_eq_flatMap cfg arrs items

/-- C3: for every failing task the backoff waits recorded by the lane are
exactly `retryDelay * 2 ^ (n - 1)` for the 1-based retry attempts
`n = 1, ..., min failCount maxRetries`: attempt 1 waits `retryDelay`,
attempt 2 waits `2 * retryDelay`, and so on. -/

theorem claim_C3_backoff_schedule (cfg : LaneCfg) (id f : Nat) (hos hof cbt : Bool) :
    retryDelays (processLane cfg [] [⟨id, f, 0, hos, hof, cbt⟩]) =
      (List.range (min f cfg.maxRetries)).map (fun k => cfg.retryDelay * 2 ^ k) := by
  rw [processLane_eq_flatMap]
  simp only [List.flatten_nil, List.append_nil, List.flatMap_cons, List.flatMap_nil]
  rw [retryDelays_runItem]
  simp

/-- C7: an item whose task keeps failing past its retry budget produces
exactly `maxRetries` retry attempts followed by one terminal failure, on
which the failed counter grows by one and the supplied onFailure callback
is invoked (whatever `cbThrows` is - the callback exception is swallowed);
the item is then dropped permanently and the lane continues with the
remaining items, whose trace is unchanged. -/

theorem claim_C7_exhausted_dropped (cfg : LaneCfg) (arrs : List (List QItem))
    (rest : List QItem) (it : QItem) (hf : cfg.maxRetries < it.failCount)
    (h0 : it.retries = 0) (hcb : it.hasOnFailure = true) :
    processLane cfg arrs (it :: rest) =
      ((List.range cfg.maxRetries).map
          (fun k => ⟨it.id, .failRetry (cfg.retryDelay * 2 ^ k)⟩)) ++
        [⟨it.id, .failFinal true⟩] ++ (rest ++ arrs.flatten).flatMap (runItem cfg) ∧
    failedCount (processLane cfg arrs (it :: rest)) =
      1 + failedCount ((rest ++ arrs.flatten).flatMap (runItem cfg)) := by
  obtain ⟨i, f, r, hos, hof, cbt⟩ := it
  simp only at h0 hcb
  subst h0; subst hcb
  have hrun := runItem_exhausted cfg i hos true cbt f 0 (by simpa using hf)
  have htr : processLane cfg arrs (⟨i, f, 0, hos, true, cbt⟩ :: rest) =
      ((List.range cfg.maxRetries).map
          (fun k => ⟨i, .failRetry (cfg.retryDelay * 2 ^ k)⟩)) ++
        [⟨i, .failFinal true⟩] ++ (rest ++ arrs.flatten).flatMap (runItem cfg) := by
    rw [processLane_eq_flatMap]
    simp only [List.cons_append, List.flatMap_cons]
    rw [hrun]
    simp [List.append_assoc]
  refine ⟨htr, ?_⟩
  rw [htr]
  simp [failedCount, List.filter_append, List.filter_map, Function.comp_def, isFailFinal]
  omega

/-- Witness for C7 at a concrete queue (maxRetries 2, retryDelay 100) and
an always failing item. -/

theorem claim_C7_witness :
    (2 : Nat) < 3 ∧
      (processLane ⟨2, 100⟩ [] [⟨7, 3, 0, false, true, false⟩] =
        ((List.range 2).map (fun k => ⟨7, .failRetry (100 * 2 ^ k)⟩)) ++
          [⟨7, .failFinal true⟩] ++
          (([] : List QItem) ++ ([] : List (List QItem)).flatten).flatMap (runItem ⟨2, 100⟩) ∧
      failedCount (processLane ⟨2, 100⟩ [] [⟨7, 3, 0, false, true, false⟩]) =
        1 + failedCount ((([] : List QItem) ++
          ([] : List (List QItem)).flatten).flatMap (runItem ⟨2, 100⟩))) :=
  ⟨by decide,
    claim_C7_exhausted_dropped ⟨2, 100⟩ [] [] ⟨7, 3, 0, false, true, false⟩ (by decide) rfl rfl⟩

/-- C2: whenever the pending count has reached maxSize, enqueue rejects
the task: it synchronously invokes the supplied onFailure callback with
the queue-full error, returns false, never throws (for either value of
`cbThrows`), and returns the queue state unchanged - lane table, pending
count, in-flight set and counters included. -/

theorem claim_C2_backpressure (st : SyncQueue) (id : Nat) (key : String) (cbThrows : Bool)
    (h : st.maxSize ≤ st.totalItems) :
    enqueue st id key true cbThrows =
      { ok := false, state := st, rejectError := some "Queue full - backpressure",
        onFailureInvoked := true, threw := false } := by
  rw [enqueue]
  simp [h]

/-- Witness for C2 at a concrete full queue (maxSize 2, two pending
items). -/

theorem claim_C2_witness :
    (⟨[("a", [1, 2])], [], [], 5, 2, 2, 0, 0⟩ : SyncQueue).maxSize ≤
        (⟨[("a", [1, 2])], [], [], 5, 2, 2, 0, 0⟩ : SyncQueue).totalItems ∧
      enqueue ⟨[("a", [1, 2])], [], [], 5, 2, 2, 0, 0⟩ 3 "b" true false =
        { ok := false, state := ⟨[("a", [1, 2])], [], [], 5, 2, 2, 0, 0⟩,
          rejectError := some "Queue full - backpressure",
          onFailureInvoked := true, threw := false } :=
  ⟨by decide, claim_C2_backpressure ⟨[("a", [1, 2])], [], [], 5, 2, 2, 0, 0⟩ 3 "b" false (by decide)⟩

/-- C6 counterexample: with maxSize 2 and the default concurrency 5, after
two slow tasks have been enqueued under the keys A and B, both lanes have
started and dequeued their item synchronously, so the pending count is 0
and the third enqueue under key C returns true without invoking its
onFailure callback - the claim asserts it returns false. -/

theorem claim_C6_counterexample :
    (enqueue (enqueue (enqueue ⟨[], [], [], 5, 2, 0, 0, 0⟩ 1 "A" false false).state
        2 "B" false false).state 3 "C" true false).ok = true ∧
    (enqueue (enqueue (enqueue ⟨[], [], [], 5, 2, 0, 0, 0⟩ 1 "A" false false).state
        2 "B" false false).state 3 "C" true false).onFailureInvoked = false ∧
    (enqueue (enqueue ⟨[], [], [], 5, 2, 0, 0, 0⟩ 1 "A" false false).state
        2 "B" false false).state.totalItems = 0 ∧
    (enqueue (enqueue ⟨[], [], [], 5, 2, 0, 0, 0⟩ 1 "A" false false).state
        2 "B" false false).state.inFlight = [1, 2] := by
  decide

/-- C6 amended: with maxSize = 2 and concurrency at least 2, after two
slow tasks have been enqueued under two different keys, both lanes start
during the enqueue calls and each dequeues its task, so the count used
against maxSize - which excludes items already dequeued for execution -
is 0 and a third enqueue attempt is accepted: it returns true and does
not invoke onFailure. -/

theorem claim_C6_amended (k1 k2 k3 : String) (c : Nat)
    (h12 : k1 ≠ k2) (h13 : k3 ≠ k1) (h23 : k3 ≠ k2) (hc : 2 ≤ c) :
    (enqueue ⟨[], [], [], c, 2, 0, 0, 0⟩ 1 k1 false false).ok = true ∧
    (enqueue (enqueue ⟨[], [], [], c, 2, 0, 0, 0⟩ 1 k1 false false).state 2 k2 false false).ok = true ∧
    (enqueue (enqueue ⟨[], [], [], c, 2, 0, 0, 0⟩ 1 k1 false false).state
        2 k2 false false).state.totalItems = 0 ∧
    (enqueue (enqueue (enqueue ⟨[], [], [], c, 2, 0, 0, 0⟩ 1 k1 false false).state
        2 k2 false false).state 3 k3 true false).ok = true ∧
    (enqueue (enqueue (enqueue ⟨[], [], [], c, 2, 0, 0, 0⟩ 1 k1 false false).state
        2 k2 false false).state 3 k3 true false).onFailureInvoked = false := by
  have h21 : k2 ≠ k1 := fun h => h12 h.symm
  have h31 : k1 ≠ k3 := fun h => h13 h.symm
  have h32 : k2 ≠ k3 := fun h => h23 h.symm
  have hc0 : ¬ c ≤ 0 := by omega
  have hc1 : ¬ c ≤ 1 := by omega
  simp [enqueue, drain, drainGo, drainStep, lanePush, laneGet, laneShift,
    h12, h21, h13, h31, h23, h32, hc0, hc1]

/-- C4 amended: every response of the submit handler is success shaped
(success true, one of the two fixed messages).  For a missing, inactive or
expired session the response is identical to the response for a genuinely
accepted submission; the duplicate (sessionId, email) case - and exactly
that case - answers with the distinct message "Attendance already
recorded", so a second submission of the same payload is distinguishable
from the first by the message text. -/

theorem claim_C4_amended (dist : Coord → Coord → Nat) (dr : Nat) (w : World) (sub : Submission) :
    (submitHandler dist dr w sub).1.success = true ∧
    ((submitHandler dist dr w sub).1 = ⟨true, "Attendance submitted successfully"⟩ ∨
      (submitHandler dist dr w sub).1 = ⟨true, "Attendance already recorded"⟩) ∧
    ((submitHandler dist dr w sub).1 = ⟨true, "Attendance already recorded"⟩ ↔
      (∃ s, (isSessionValid w sub.sessionId).1 = .ok s) ∧
        hasSessionAttendee w sub.sessionId sub.email = true) := by
  rcases hg : getSession w sub.sessionId with _ | s
  · simp [submitHandler, isSessionValid, hg]
  · by_cases h1 : s.isActive = false
    · simp [submitHandler, isSessionValid, hg, h1]
    · by_cases h2 : s.expiresAt < w.now
      · simp [submitHandler, isSessionValid, hg, h1, h2]
      · by_cases hdup : hasSessionAttendee w sub.sessionId sub.email = true
        · simp [submitHandler, isSessionValid, hg, h1, h2, hdup]
        · simp [submitHandler, isSessionValid, hg, h1, h2, hdup]

/-- C4 counterexample: submitting the same payload twice for the same
valid session yields two success responses whose messages differ, contrary
to the claimed identical responses. -/

theorem claim_C4_counterexample :
    (submitHandler zeroDist 100 c4World c4Sub).1 =
      ⟨true, "Attendance submitted successfully"⟩ ∧
    (submitHandler zeroDist 100 (submitHandler zeroDist 100 c4World c4Sub).2 c4Sub).1 =
      ⟨true, "Attendance already recorded"⟩ ∧
    (submitHandler zeroDist 100 c4World c4Sub).1 ≠
      (submitHandler zeroDist 100 (submitHandler zeroDist 100 c4World c4Sub).2 c4Sub).1 := by
  decide

/-- Either the handler leaves records and attendees unchanged (invalid
session or duplicate), or it was a first submission for the pair and it
appended exactly one record carrying that pair and one attendee entry. -/

theorem submitHandler_world_shape (dist : Coord → Coord → Nat) (dr : Nat)
    (w : World) (sub : Submission) :
    ((submitHandler dist dr w sub).2.records = w.records ∧
      (submitHandler dist dr w sub).2.attendees = w.attendees) ∨
    (∃ rec : AttRecord, rec.sessionId = sub.sessionId ∧ rec.email = sub.email ∧
      (sub.sessionId, sub.email) ∉ w.attendees ∧
      (submitHandler dist dr w sub).2.records = w.records ++ [rec] ∧
      (submitHandler dist dr w sub).2.attendees = w.attendees ++ [(sub.sessionId, sub.email)]) := by
  rcases hg : getSession w sub.sessionId with _ | s
  · exact Or.inl (by simp [submitHandler, isSessionValid, hg])
  · by_cases ha : s.isActive = false
    · exact Or.inl (by simp [submitHandler, isSessionValid, hg, ha])
    · by_cases he : s.expiresAt < w.now
      · exact Or.inl (by simp [submitHandler, isSessionValid, hg, ha, he, deactivateSession])
      · by_cases hdup : hasSessionAttendee w sub.sessionId sub.email = true
        · exact Or.inl (by simp [submitHandler, isSessionValid, hg, ha, he, hdup])
        · have hne : (sub.sessionId, sub.email) ∉ w.attendees := by
            simpa [hasSessionAttendee] using hdup
          refine Or.inr ⟨⟨sub.sessionId, sub.studentName, sub.email, sub.ipAddress,
              jsOrStr sub.macAddress "N/A", jsTruthyInt sub.latitude, jsTruthyInt sub.longitude,
              w.now,
              if (validateSubmission dist dr w ⟨sub.sessionId, sub.studentName, sub.email,
                sub.ipAddress, jsOrStr sub.macAddress "N/A", jsLocOf sub.latitude sub.longitude,
                s.classroomLocation, s.geofenceRadius⟩).1.isValid = true then "PRESENT"
              else "FLAGGED",
              (validateSubmission dist dr w ⟨sub.sessionId, sub.studentName, sub.email,
                sub.ipAddress, jsOrStr sub.macAddress "N/A", jsLocOf sub.latitude sub.longitude,
                s.classroomLocation, s.geofenceRadius⟩).1.violations⟩,
            rfl, rfl, hne, ?_, ?_⟩ <;>
            simp [submitHandler, isSessionValid, hg, ha, he, hdup, validateSubmission,
              addSessionAttendee, hne]

/-- C5: the submit handler preserves the invariant that at most one
attendance record exists per (sessionId, email) pair (together with the
invariant that every record is covered by the attendee table): a second
submission for the same pair is caught by the attendee membership check
before record creation and changes nothing. -/

theorem claim_C5_at_most_one (dist : Coord → Coord → Nat) (dr : Nat)
    (w : World) (sub : Submission)
    (h1 : PairUnique w.records) (h2 : RecordsCovered w) :
    PairUnique (submitHandler dist dr w sub).2.records ∧
    RecordsCovered (submitHandler dist dr w sub).2 := by
  unfold PairUnique at h1
  unfold RecordsCovered at h2
  unfold PairUnique RecordsCovered
  rcases submitHandler_world_shape dist dr w sub with ⟨hr, ha⟩ | ⟨rec, hsid, hem, hne, hr, ha⟩
  · rw [hr, ha]
    exact ⟨h1, h2⟩
  · rw [hr, ha]
    constructor
    · refine List.pairwise_append.mpr ⟨h1, List.pairwise_singleton _ _, ?_⟩
      intro a ham b hbm
      rw [List.mem_singleton] at hbm
      subst hbm
      rintro ⟨hsa, hea⟩
      apply hne
      have := h2 a ham
      rwa [hsa, hea, hsid, hem] at this
    · intro r hrm
      rcases List.mem_append.mp hrm with hin | hin
      · exact List.mem_append_left _ (h2 r hin)
      · rw [List.mem_singleton] at hin
        subst hin
        apply List.mem_append_right
        rw [hsid, hem]
        exact List.mem_singleton.mpr rfl

/-- Witness for C5 at a concrete world with one valid session and no
records. -/

theorem claim_C5_witness :
    PairUnique c5World.records ∧ RecordsCovered c5World ∧
      (PairUnique (submitHandler zeroDist 100 c5World c5Sub).2.records ∧
        RecordsCovered (submitHandler zeroDist 100 c5World c5Sub).2) :=
  ⟨by constructor, by intro r hr; simp [c5World] at hr,
    claim_C5_at_most_one zeroDist 100 c5World c5Sub (by constructor)
      (by intro r hr; simp [c5World] at hr)⟩

/-- The accepted path of the submit handler, explicitly: valid session,
pair not yet present - the record `subRecord` is appended, the attendee
pair is added, the cheat log grows as validateSubmission decided. -/

theorem submitHandler_accept (dist : Coord → Coord → Nat) (dr : Nat)
    (w : World) (sub : Submission) (s : Session)
    (hg : getSession w sub.sessionId = some s)
    (hact : s.isActive = true) (hexp : ¬ s.expiresAt < w.now)
    (hdup : (sub.sessionId, sub.email) ∉ w.attendees) :
    (submitHandler dist dr w sub).2 =
      { sessions := w.sessions,
        attendees := w.attendees ++ [(sub.sessionId, sub.email)],
        records := w.records ++ [subRecord dist dr w sub s],
        cheatingLogs := (validateSubmission dist dr w (subParams sub s)).2.cheatingLogs,
        now := w.now } := by
  have ha : ¬ s.isActive = false := by simp [hact]
  have hd : ¬ hasSessionAttendee w sub.sessionId sub.email = true := by
    simp [hasSessionAttendee, hdup]
  simp [submitHandler, isSessionValid, hg, ha, hexp, hd, addSessionAttendee, hdup,
    subRecord, subParams, validateSubmission]

theorem checkDuplicateDevice_mac (records : List AttRecord) (sid ip mac : String)
    (r : AttRecord) (hr : r ∈ records) (hsid : r.sessionId = sid)
    (hmac : mac ≠ "") (hrmac : r.macAddress = mac) :
    (checkDuplicateDevice records sid ip mac).isDuplicate = true := by
  unfold checkDuplicateDevice
  have hmem : r ∈ (records.filter (fun r => decide (r.sessionId = sid))).filter
      (fun r => decide ((ip ≠ "" ∧ r.ipAddress = ip) ∨ (mac ≠ "" ∧ r.macAddress = mac))) := by
    refine List.mem_filter.mpr ⟨List.mem_filter.mpr ⟨hr, by simp [hsid]⟩, ?_⟩
    simp only [decide_eq_true_eq]
    exact Or.inr ⟨hmac, hrmac⟩
  have hne : ((records.filter (fun r => decide (r.sessionId = sid))).filter
      (fun r => decide ((ip ≠ "" ∧ r.ipAddress = ip) ∨
        (mac ≠ "" ∧ r.macAddress = mac)))).isEmpty = false := by
    rcases hE : ((records.filter (fun r => decide (r.sessionId = sid))).filter
      (fun r => decide ((ip ≠ "" ∧ r.ipAddress = ip) ∨
        (mac ≠ "" ∧ r.macAddress = mac)))) with _ | ⟨x, xs⟩
    · rw [hE] at hmem; exact absurd hmem (List.not_mem_nil r)
    · rw [hE]; rfl
  simp only [checkDuplicateDevice]
  rw [hne]
  rfl

theorem validateSubmission_dup (dist : Coord → Coord → Nat) (dr : Nat)
    (w : World) (p : VParams)
    (h : (checkDuplicateDevice w.records p.sessionId p.ipAddress p.macAddress).isDuplicate
      = true) :
    (validateSubmission dist dr w p).1.isValid = false ∧
    ∃ v ∈ (validateSubmission dist dr w p).1.violations, v.vtype = "Duplicate Device" := by
  unfold validateSubmission
  simp only [h, if_true]
  constructor
  · simp
  · refine ⟨⟨"Duplicate Device",
      (checkDuplicateDevice w.records p.sessionId p.ipAddress p.macAddress).reason,
      if 0 ≤ (validateLocation dist p.studentLocation p.classroomLocation p.geofenceRadius
        dr).distance then (validateLocation dist p.studentLocation p.classroomLocation
        p.geofenceRadius dr).distance else 0⟩, ?_, rfl⟩
    simp

/-- C10: two submissions to the same valid session that both omit
macAddress both get the literal N/A substituted and persisted; the second
one matches the first record on MAC string equality in
checkDuplicateDevice, so it is persisted with a Duplicate Device violation
and FLAGGED status, even though the two IP addresses differ. -/

theorem claim_C10_na_mac_collision (dist : Coord → Coord → Nat) (dr : Nat)
    (s : Session) (ats : List (String × String)) (rs : List AttRecord)
    (logs : List CheatLog) (now : Nat) (sub1 sub2 : Submission)
    (hact : s.isActive = true) (hexp : ¬ s.expiresAt < now)
    (hs1 : sub1.sessionId = s.id) (hs2 : sub2.sessionId = s.id)
    (hm1 : sub1.macAddress = none) (hm2 : sub2.macAddress = none)
    (he : sub1.email ≠ sub2.email)
    (ha1 : (s.id, sub1.email) ∉ ats) (ha2 : (s.id, sub2.email) ∉ ats)
    (hip : sub1.ipAddress ≠ sub2.ipAddress) :
    ∃ rec2 : AttRecord,
      (submitHandler dist dr
          (submitHandler dist dr ⟨[s], ats, rs, logs, now⟩ sub1).2 sub2).2.records =
        (submitHandler dist dr ⟨[s], ats, rs, logs, now⟩ sub1).2.records ++ [rec2] ∧
      rec2.macAddress = "N/A" ∧ rec2.status = "FLAGGED" ∧
      (∃ v ∈ rec2.violations, v.vtype = "Duplicate Device") := by
  have hg0 : getSession (⟨[s], ats, rs, logs, now⟩ : World) sub1.sessionId = some s := by
    simp [getSession, hs1]
  have hd0 : (sub1.sessionId, sub1.email) ∉
      (⟨[s], ats, rs, logs, now⟩ : World).attendees := by
    simpa [hs1] using ha1
  have hw1 := submitHandler_accept dist dr ⟨[s], ats, rs, logs, now⟩ sub1 s hg0 hact
    (by simpa using hexp) hd0
  have hg1 : getSession (submitHandler dist dr ⟨[s], ats, rs, logs, now⟩ sub1).2
      sub2.sessionId = some s := by
    rw [hw1]; simp [getSession, hs2]
  have hd1 : (sub2.sessionId, sub2.email) ∉
      (submitHandler dist dr ⟨[s], ats, rs, logs, now⟩ sub1).2.attendees := by
    rw [hw1]
    simp only [List.mem_append, List.mem_singleton, not_or]
    refine ⟨by simpa [hs2] using ha2, ?_⟩
    intro habs
    apply he
    have := congrArg Prod.snd habs
    exact this.symm
  have hexp1 : ¬ s.expiresAt <
      (submitHandler dist dr ⟨[s], ats, rs, logs, now⟩ sub1).2.now := by
    rw [hw1]; simpa using hexp
  have hw2 := submitHandler_accept dist dr
    (submitHandler dist dr ⟨[s], ats, rs, logs, now⟩ sub1).2 sub2 s hg1 hact hexp1 hd1
  have hmac2 : (subParams sub2 s).macAddress = "N/A" := by
    simp [subParams, hm2, jsOrStr]
  have hrec1mem : subRecord dist dr ⟨[s], ats, rs, logs, now⟩ sub1 s ∈
      (submitHandler dist dr ⟨[s], ats, rs, logs, now⟩ sub1).2.records := by
    rw [hw1]
    exact List.mem_append_right _ (List.mem_singleton.mpr rfl)
  have hdup2 : (checkDuplicateDevice
      (submitHandler dist dr ⟨[s], ats, rs, logs, now⟩ sub1).2.records
      (subParams sub2 s).sessionId (subParams sub2 s).ipAddress
      (subParams sub2 s).macAddress).isDuplicate = true := by
    apply checkDuplicateDevice_mac _ _ _ _
      (subRecord dist dr ⟨[s], ats, rs, logs, now⟩ sub1 s) hrec1mem
    · show sub1.sessionId = (subParams sub2 s).sessionId
      rw [hs1]
      exact hs2.symm
    · rw [hmac2]; decide
    · show jsOrStr sub1.macAddress "N/A" = (subParams sub2 s).macAddress
      rw [hmac2, hm1]
      rfl
  have hvd := validateSubmission_dup dist dr
    (submitHandler dist dr ⟨[s], ats, rs, logs, now⟩ sub1).2 (subParams sub2 s) hdup2
  refine ⟨subRecord dist dr (submitHandler dist dr ⟨[s], ats, rs, logs, now⟩ sub1).2 sub2 s,
    ?_, ?_, ?_, ?_⟩
  · rw [hw2]
  · simp [subRecord, hm2, jsOrStr]
  · simp [subRecord, hvd.1]
  · simpa [subRecord] using hvd.2

/-- Witness for C10 at a concrete session and two concrete submissions
with distinct emails and IPs and no MAC. -/

theorem claim_C10_witness :
    ∃ rec2 : AttRecord,
      (submitHandler zeroDist 100
          (submitHandler zeroDist 100
            ⟨[⟨"s1", "t1", true, 100, none, none, none⟩], [], [], [], 50⟩
            ⟨"s1", "A", "a@u.edu", none, none, none, "ip1"⟩).2
          ⟨"s1", "B", "b@u.edu", none, none, none, "ip2"⟩).2.records =
        (submitHandler zeroDist 100
          ⟨[⟨"s1", "t1", true, 100, none, none, none⟩], [], [], [], 50⟩
          ⟨"s1", "A", "a@u.edu", none, none, none, "ip1"⟩).2.records ++ [rec2] ∧
      rec2.macAddress = "N/A" ∧ rec2.status = "FLAGGED" ∧
      (∃ v ∈ rec2.violations, v.vtype = "Duplicate Device") :=
  claim_C10_na_mac_collision zeroDist 100 ⟨"s1", "t1", true, 100, none, none, none⟩
    [] [] [] 50 ⟨"s1", "A", "a@u.edu", none, none, none, "ip1"⟩
    ⟨"s1", "B", "b@u.edu", none, none, none, "ip2"⟩
    rfl (by decide) rfl rfl rfl rfl (by decide) (by simp) (by simp) (by decide)

/-- C8 counterexample: a submission supplying the coordinates (0, 50) -
latitude exactly 0, on the equator - with the classroom configured at the
very same point is treated as having no location data by the truthiness
check `!studentLocation.lat`, so the geofence check is not valid even
though the great-circle distance, 0, is at most the radius 100.  The
claim, quantified over every submission with student coordinates, is
false at this input. -/

theorem claim_C8_counterexample :
    (validateLocation taxiDist (some ⟨0, 50⟩) (some ⟨0, 50⟩) (some 100) 100).valid = false ∧
    taxiDist ⟨0, 50⟩ ⟨0, 50⟩ = 0 ∧ (0 : Nat) ≤ 100 := by
  decide

/-- C8 amended: for every submission whose student coordinates are both
nonzero and whose configured classroom coordinates are both nonzero (a
zero latitude or longitude is treated as missing by the truthiness
checks), the geofence check is valid if and only if the distance is at
most the configured radius, falling back to the default radius when the
radius is unset or zero; the reported distance is the computed distance;
and a Location Violation is recorded if and only if the distance exceeds
the radius - so a student exactly at the radius passes and one meter
beyond is flagged. -/

theorem claim_C8_amended (dist : Coord → Coord → Nat) (dr : Nat) (w : World) (p : VParams)
    (sc cc : Coord)
    (hsl : p.studentLocation = some sc) (hs1 : sc.lat ≠ 0) (hs2 : sc.lng ≠ 0)
    (hcl : p.classroomLocation = some cc) (hc1 : cc.lat ≠ 0) (hc2 : cc.lng ≠ 0) :
    ((validateLocation dist p.studentLocation p.classroomLocation p.geofenceRadius dr).valid
        = true ↔ dist sc cc ≤ jsOrNat p.geofenceRadius dr) ∧
    (validateLocation dist p.studentLocation p.classroomLocation p.geofenceRadius dr).distance
      = (dist sc cc : Int) ∧
    ((∃ v ∈ (validateSubmission dist dr w p).1.violations, v.vtype = "Location Violation") ↔
      jsOrNat p.geofenceRadius dr < dist sc cc) := by
  have hloc : validateLocation dist p.studentLocation p.classroomLocation p.geofenceRadius dr =
      { valid := decide (dist sc cc ≤ jsOrNat p.geofenceRadius dr),
        distance := (dist sc cc : Int),
        reason := if jsOrNat p.geofenceRadius dr < dist sc cc then
            "Student is " ++ toString (dist sc cc) ++ "m away (limit: " ++
              toString (jsOrNat p.geofenceRadius dr) ++ "m)"
          else "Within geofence" } := by
    rw [hsl]
    simp only [validateLocation, hs1, hs2, hcl, hc1, hc2]
    simp [hs1, hs2, hc1, hc2]
  refine ⟨by rw [hloc]; simp, by rw [hloc], ?_⟩
  unfold validateSubmission
  rw [hloc]
  by_cases hcmp : jsOrNat p.geofenceRadius dr < dist sc cc
  · have hnle : ¬ dist sc cc ≤ jsOrNat p.geofenceRadius dr := by omega
    simp only [hcmp, iff_true]
    refine ⟨⟨"Location Violation",
      "Student is " ++ toString (dist sc cc) ++ "m away (limit: " ++
        toString (jsOrNat p.geofenceRadius dr) ++ "m)",
      (dist sc cc : Int)⟩, ?_, rfl⟩
    simp [hnle, hcmp, Int.natCast_nonneg]
  · have hle : dist sc cc ≤ jsOrNat p.geofenceRadius dr := by omega
    simp only [hcmp, iff_false]
    rintro ⟨v, hv, hvt⟩
    simp [hle] at hv
    rcases hv with ⟨hdup, hveq⟩
    subst hveq
    replace hvt : ("Duplicate Device" : String) = "Location Violation" := hvt
    exact absurd hvt (by decide)

/-- Witness for the amended C6 at keys A, B, C and concurrency 5. -/

theorem claim_C6_amended_witness :
    ("A" : String) ≠ "B" ∧ ("C" : String) ≠ "A" ∧ ("C" : String) ≠ "B" ∧ (2 : Nat) ≤ 5 ∧
      ((enqueue ⟨[], [], [], 5, 2, 0, 0, 0⟩ 1 "A" false false).ok = true ∧
      (enqueue (enqueue ⟨[], [], [], 5, 2, 0, 0, 0⟩ 1 "A" false false).state 2 "B" false false).ok
        = true ∧
      (enqueue (enqueue ⟨[], [], [], 5, 2, 0, 0, 0⟩ 1 "A" false false).state
          2 "B" false false).state.totalItems = 0 ∧
      (enqueue (enqueue (enqueue ⟨[], [], [], 5, 2, 0, 0, 0⟩ 1 "A" false false).state
          2 "B" false false).state 3 "C" true false).ok = true ∧
      (enqueue (enqueue (enqueue ⟨[], [], [], 5, 2, 0, 0, 0⟩ 1 "A" false false).state
          2 "B" false false).state 3 "C" true false).onFailureInvoked = false) :=
  ⟨by decide, by decide, by decide, by decide,
    claim_C6_amended "A" "B" "C" 5 (by decide) (by decide) (by decide) (by decide)⟩

/-- Witness for the amended C8 at the boundary: distance exactly equal to
the radius 100. -/

theorem claim_C8_witness :
    ((validateLocation (fun _ _ => 100) (some ⟨1, 1⟩) (some ⟨2, 2⟩) (some 100) 100).valid = true
      ↔ (100 : Nat) ≤ jsOrNat (some 100) 100) ∧
    (validateLocation (fun _ _ => 100) (some ⟨1, 1⟩) (some ⟨2, 2⟩) (some 100) 100).distance
      = ((100 : Nat) : Int) ∧
    ((∃ v ∈ (validateSubmission (fun _ _ => 100) 100 ⟨[], [], [], [], 0⟩
        ⟨"s", "n", "e", "ip", "m", some ⟨1, 1⟩, some ⟨2, 2⟩, some 100⟩).1.violations,
        v.vtype = "Location Violation") ↔ jsOrNat (some 100) 100 < 100) :=
  claim_C8_amended (fun _ _ => 100) 100 ⟨[], [], [], [], 0⟩
    ⟨"s", "n", "e", "ip", "m", some ⟨1, 1⟩, some ⟨2, 2⟩, some 100⟩ ⟨1, 1⟩ ⟨2, 2⟩
    rfl (by decide) (by decide) rfl (by decide) (by decide)

/-- C9: a submission without student coordinates gets distance -1 (the
unknown marker, not zero) and no Location Violation: its violation list is
exactly the Duplicate Device violation when the duplicate check hits and
empty otherwise, so it is invalid (FLAGGED) iff the duplicate device check
independently produces a violation; and when no classroom location is
configured the geofence check is skipped and valid by default. -/

theorem claim_C9_unverifiable (dist : Coord → Coord → Nat) (dr : Nat) (w : World)
    (p : VParams) (hnl : p.studentLocation = none) :
    (validateSubmission dist dr w p).1.locationResult.distance = -1 ∧
    (validateSubmission dist dr w p).1.violations =
      (if (checkDuplicateDevice w.records p.sessionId p.ipAddress p.macAddress).isDuplicate
          = true then
        [⟨"Duplicate Device",
          (checkDuplicateDevice w.records p.sessionId p.ipAddress p.macAddress).reason, 0⟩]
      else []) ∧
    ((validateSubmission dist dr w p).1.isValid = false ↔
      (checkDuplicateDevice w.records p.sessionId p.ipAddress p.macAddress).isDuplicate
        = true) ∧
    (∀ sc : Coord, sc.lat ≠ 0 → sc.lng ≠ 0 →
      (validateLocation dist (some sc) none p.geofenceRadius dr).valid = true) := by
  have hloc : validateLocation dist p.studentLocation p.classroomLocation p.geofenceRadius dr
      = ⟨false, -1, "No location data"⟩ := by
    rw [hnl]; rfl
  refine ⟨?_, ?_, ?_, ?_⟩
  · unfold validateSubmission
    rw [hloc]
  · unfold validateSubmission
    rw [hloc]
    by_cases hdup : (checkDuplicateDevice w.records p.sessionId p.ipAddress
        p.macAddress).isDuplicate = true
    · simp [hdup]
    · simp [hdup]
  · unfold validateSubmission
    rw [hloc]
    by_cases hdup : (checkDuplicateDevice w.records p.sessionId p.ipAddress
        p.macAddress).isDuplicate = true
    · simp [hdup]
    · simp [hdup]
  · intro sc h1 h2
    simp [validateLocation, h1, h2]

/-- Witness for C9 at a concrete submission without coordinates. -/

theorem claim_C9_witness :
    ((⟨"s", "n", "e", "ip", "m", none, none, none⟩ : VParams).studentLocation = none) ∧
    ((validateSubmission (fun _ _ => 0) 100 ⟨[], [], [], [], 0⟩
        ⟨"s", "n", "e", "ip", "m", none, none, none⟩).1.locationResult.distance = -1 ∧
    (validateSubmission (fun _ _ => 0) 100 ⟨[], [], [], [], 0⟩
        ⟨"s", "n", "e", "ip", "m", none, none, none⟩).1.violations =
      (if (checkDuplicateDevice (⟨[], [], [], [], 0⟩ : World).records "s" "ip"
          "m").isDuplicate = true then
        [⟨"Duplicate Device",
          (checkDuplicateDevice (⟨[], [], [], [], 0⟩ : World).records "s" "ip" "m").reason, 0⟩]
      else []) ∧
    ((validateSubmission (fun _ _ => 0) 100 ⟨[], [], [], [], 0⟩
        ⟨"s", "n", "e", "ip", "m", none, none, none⟩).1.isValid = false ↔
      (checkDuplicateDevice (⟨[], [], [], [], 0⟩ : World).records "s" "ip"
        "m").isDuplicate = true) ∧
    (∀ sc : Coord, sc.lat ≠ 0 → sc.lng ≠ 0 →
      (validateLocation (fun _ _ => 0) (some sc) none none 100).valid = true)) :=
  ⟨rfl, claim_C9_unverifiable (fun _ _ => 0) 100 ⟨[], [], [], [], 0⟩
    ⟨"s", "n", "e", "ip", "m", none, none, none⟩ rfl⟩

end AttendQR
